import Mathlib

/-!
Verification of the database access component (`backend/flask_docker/db.py`).

The Python code is shallowly embedded: Python strings are Lean `String`s
manipulated through helper functions (`pyTrim`, `pySplit`, `pyContains`,
`pyStartsWith`, `pyReplace`) mirroring the semantics of `str.strip()`,
`str.split()`, the `in` operator, `str.startswith` and `str.replace`.
Python dicts of column/value pairs are ordered association lists with
distinct keys; scalar values are an inductive `Value` type; exceptions are
an explicit `PyErr` error type threaded through `Except`.
-/

/-- Python's default whitespace set for `str.strip()` / `str.split()`
(ASCII portion). -/
def pyIsSpace (c : Char) : Bool :=
  c = ' ' || c = '\t' || c = '\n' || c = '\x0d' || c = '\x0b' || c = '\x0c'

/-- Embeds `s.strip()`: remove leading and trailing whitespace. -/
def pyTrim (s : String) : String :=
  String.mk (((s.data.dropWhile pyIsSpace).reverse.dropWhile pyIsSpace).reverse)

/-- Helper for `pySplit`: accumulate the current token (reversed) while
scanning the character list. -/
def pySplitAux (cur : List Char) : List Char → List (List Char)
  | [] => if cur.isEmpty then [] else [cur.reverse]
  | c :: t =>
    if pyIsSpace c then
      if cur.isEmpty then pySplitAux [] t else cur.reverse :: pySplitAux [] t
    else
      pySplitAux (c :: cur) t

/-- Embeds `s.split()` with no argument: split on runs of whitespace, dropping
empty tokens. -/
def pySplit (s : String) : List String :=
  (pySplitAux [] s.data).map String.mk

/-- Whether `needle` occurs as a contiguous sublist of `hay`
(`needle in hay` on Python strings). -/
def containsSubList (needle : List Char) : List Char → Bool
  | [] => needle.isEmpty
  | c :: t => needle.isPrefixOf (c :: t) || containsSubList needle t

/-- Python's `needle in hay` for strings. -/
def pyContains (hay needle : String) : Bool :=
  containsSubList needle.data hay.data

/-- Python's `s.startswith(p)`. -/
def pyStartsWith (s p : String) : Bool :=
  p.data.isPrefixOf s.data

/-- Python's `s.replace(old, new)` on character lists: replace every
non-overlapping occurrence of `old`, scanning left to right. Structurally
recursive on a fuel argument: every step consumes at least one character of
the haystack, so fuel equal to the haystack length is enough and the
fuel-exhausted case is unreachable. The `old = []` case never arises in the
embedded code (the script delimiter is always a nonempty token). -/
def replaceListGo (old new : List Char) : Nat → List Char → List Char
  | _, [] => []
  | 0, h => h
  | fuel + 1, c :: t =>
    if !old.isEmpty && old.isPrefixOf (c :: t) then
      new ++ replaceListGo old new fuel (t.drop (old.length - 1))
    else
      c :: replaceListGo old new fuel t

/-- Python's `s.replace(old, new)` for strings. -/
def pyReplace (s old new : String) : String :=
  String.mk (replaceListGo old.data new.data s.data.length s.data)

instance {ε α : Type} [DecidableEq ε] [DecidableEq α] : DecidableEq (Except ε α) :=
  fun x y =>
    match x, y with
    | .ok a, .ok b =>
      if h : a = b then .isTrue (h ▸ rfl) else .isFalse (fun he => h (Except.ok.inj he))
    | .error a, .error b =>
      if h : a = b then .isTrue (h ▸ rfl) else .isFalse (fun he => h (Except.error.inj he))
    | .ok _, .error _ => .isFalse (fun he => Except.noConfusion he)
    | .error _, .ok _ => .isFalse (fun he => Except.noConfusion he)

/-- Python exceptions that the embedded code can raise. -/
inductive PyErr
  /-- Python `IndexError`, e.g. `line.split()[1]` on a too-short list. -/
  | indexError
  /-- Python `ValueError`, e.g. `raise ValueError("Need some column/values to index on")`. -/
  | valueError
  /-- A driver-level failure raised by `conn.commit()` / `conn.close()`. -/
  | operationalError
  /-- Python `RuntimeError` raised as "Failed to connect to database after N retries",
  carrying `N = max_retries`. -/
  | connectError (retries : Nat)
deriving DecidableEq

/-- A naive timestamp, the embedding of `datetime.datetime`. -/
structure PyDateTime where
  year : Nat
  month : Nat
  day : Nat
  hour : Nat
  minute : Nat
  second : Nat
  microsecond : Nat
deriving DecidableEq

/-- Scalar values storable in a row dict: string, integer, float is not
needed by any claim and is omitted, boolean, timestamp, and Python `None`. -/
inductive Value
  | str (s : String)
  | int (n : Int)
  | bool (b : Bool)
  | dt (d : PyDateTime)
  | none
deriving DecidableEq

/-- A row: ordered mapping from column name to scalar value
(a Python dict; keys are assumed distinct). -/
abbrev Obj : Type := List (String × Value)

/-- Driver-level operations observable on the connection. -/
inductive Op
  | commit
  | rollback
  | close
  | exec (sql : String) (args : List Value)
deriving DecidableEq

/-- The underlying pymysql connection, abstracted to what the claims
observe: whether the transport is open, and whether `commit()` / `close()`
would raise when called. -/
structure Conn where
  isOpen : Bool
  commitFails : Bool
  closeFails : Bool
deriving DecidableEq

/-- Embeds `self.conn.commit()`: raises on a failing connection, otherwise records
one commit. -/
def connCommit (c : Conn) : Except PyErr (List Op) :=
  if c.commitFails then .error .operationalError else .ok [Op.commit]

/-- Embeds `self.conn.close()`: raises on a failing connection, otherwise records
one close. -/
def connClose (c : Conn) : Except PyErr (List Op) :=
  if c.closeFails then .error .operationalError else .ok [Op.close]

/-- The `Database` class state set up by `__init__`. -/
structure Database where
  database : String
  autocommit : Bool
  conn : Conn
deriving DecidableEq

namespace Database

/-- Embeds `Database.max_retries = 1`. -/
def max_retries : Nat := 1

/-- Embeds `Database.__del__`: `if self.conn.open: self.conn.commit(); self.conn.close()`.
There is no exception handling in the body, so a failing driver call
propagates out of the method and aborts the rest of it. -/
def __del__ (db : Database) : Except PyErr (List Op) :=
  if db.conn.isOpen then do
    let a ← connCommit db.conn
    let b ← connClose db.conn
    pure (a ++ b)
  else
    pure []

/-- Embeds `Database.__exit__`: rollback when an exception is propagating through
the `with` block, commit otherwise. Returns the driver calls issued. -/
def __exit__ (db : Database) (excOccurred : Bool) : List Op :=
  if excOccurred then [Op.rollback] else [Op.commit]

end Database

/-- Embeds `Database._get_connection`, instrumented: `connect k` tells whether the
`pymysql.connect` call on loop iteration `k` succeeds. Returns the number of
connection attempts made, the trace of `time.sleep` durations, and either
the successful attempt index (standing in for the connection object) or the
`RuntimeError` raised after the loop. -/
def getConnectionGo (connect : Nat → Bool) (maxRetries retry attempts : Nat)
    (sleeps : List Nat) : Nat × List Nat × Except PyErr Nat :=
  if h : retry < maxRetries then
    if connect retry then
      (attempts + 1, sleeps, .ok retry)
    else
      getConnectionGo connect maxRetries (retry + 1) (attempts + 1)
        (if retry < maxRetries - 1 then sleeps ++ [2 ^ retry] else sleeps)
  else
    (attempts, sleeps, .error (.connectError maxRetries))
termination_by maxRetries - retry

/-- Embeds `Database._get_connection`: `for retry in range(max_retries)` starting
with no attempts made and no sleeps performed. -/
def _get_connection (connect : Nat → Bool) (maxRetries : Nat) :
    Nat × List Nat × Except PyErr Nat :=
  getConnectionGo connect maxRetries 0 0 []

/-- Zero-pad the decimal representation of `n` to width `w`
(`strftime` field padding). -/
def padZeros (w n : Nat) : String :=
  let s := Nat.repr n
  String.mk (List.replicate (w - s.length) '0') ++ s

namespace Database

/-- Embeds `Database.fmt_datetime`: `dt.strftime(r"%Y-%m-%d %H:%M:%S.%f")`. -/
def fmt_datetime (d : PyDateTime) : String :=
  padZeros 4 d.year ++ "-" ++ padZeros 2 d.month ++ "-" ++ padZeros 2 d.day ++ " " ++
    padZeros 2 d.hour ++ ":" ++ padZeros 2 d.minute ++ ":" ++ padZeros 2 d.second ++ "." ++
    padZeros 6 d.microsecond

end Database

/-- Embeds `obj[k]`: dict lookup. Keys of an `Obj` are distinct, and the embedded
code only looks up keys drawn from `obj.keys()`, so the `Value.none`
default is never reached. -/
def lookupObj (obj : Obj) (k : String) : Value :=
  match List.find? (fun kv => kv.1 == k) obj with
  | some kv => kv.2
  | Option.none => Value.none

/-- Embeds `keys = [k for k in obj.keys() if k != "id"]`, the column list common to
`insert`, `update` and `insert_on_dup_update`. -/
def nonIdKeys (obj : Obj) : List String :=
  (List.map Prod.fst obj).filter (fun k => k != "id")

/-- Embeds `isinstance(arg, datetime)` conversion applied by `insert` to each bound
argument. -/
def convArg (v : Value) : Value :=
  match v with
  | .dt d => .str (Database.fmt_datetime d)
  | _ => v

/-- The loop `for arg in args: if isinstance(arg, datetime): arg = self.fmt_datetime(arg)`
appearing in `update` and `insert_on_dup_update`: it rebinds only the loop
variable `arg`, so the argument list is returned unchanged. -/
def rebindLoop (args : List Value) : List Value :=
  args

namespace Database

/-- The SQL text and bound arguments built by `Database.insert(table, obj)`
(the statement then passed to `cursor.execute`). -/
def insert (table : String) (obj : Obj) : String × List Value :=
  let keys := nonIdKeys obj
  let vals := ",".intercalate (keys.map (fun _ => "%s"))
  let cols := ",".intercalate (keys.map (fun key => "`" ++ key ++ "`"))
  let sql := "INSERT INTO " ++ table ++ " (" ++ cols ++ ") VALUES (" ++ vals ++ ")"
  let args := (keys.map (lookupObj obj)).map convArg
  (sql, args)

/-- Embeds `Database.update(table, obj, where, where_list)`: returns the
`cursor.execute` calls issued together with either the SQL/args built, or
the exception raised.  `where_list = some []` models passing an empty list,
on which `zip(*where_list)` raises `ValueError` during unpacking; both
arguments `none` models omitting them, which hits
`raise ValueError("Need some column/values to index on")`. -/
def update (table : String) (obj : Obj) (whereArg : Option (String × Value))
    (where_list : Option (List (String × Value))) :
    List Op × Except PyErr (String × List Value) :=
  let keys := nonIdKeys obj
  let updates := ",".intercalate (keys.map (fun key => "`" ++ key ++ "`=%s"))
  match whereArg with
  | some w =>
    let sql := "UPDATE " ++ table ++ " SET " ++ updates ++ " WHERE `" ++ w.1 ++ "`=%s"
    let args := rebindLoop (keys.map (lookupObj obj) ++ [w.2])
    ([Op.exec sql args], .ok (sql, args))
  | Option.none =>
    match where_list with
    | some [] => ([], .error .valueError)
    | some wl =>
      let whereCols := " AND ".intercalate (wl.map (fun p => p.1 ++ "=%s"))
      let sql := "UPDATE " ++ table ++ " SET " ++ updates ++ " WHERE " ++ whereCols
      let args := rebindLoop (keys.map (lookupObj obj) ++ wl.map Prod.snd)
      ([Op.exec sql args], .ok (sql, args))
    | Option.none => ([], .error .valueError)

end Database

/-- Embeds `update_keys = [k for k in keys if k != "created_at"]` in
`Database.insert_on_dup_update`: the columns listed in the
ON DUPLICATE KEY UPDATE clause. -/
def onDupKeys (obj : Obj) : List String :=
  (nonIdKeys obj).filter (fun k => k != "created_at")

namespace Database

/-- The SQL text and bound arguments built by
`Database.insert_on_dup_update(table, obj)`. -/
def insert_on_dup_update (table : String) (obj : Obj) : String × List Value :=
  let keys := nonIdKeys obj
  let update_keys := onDupKeys obj
  let cols := ", ".intercalate (keys.map (fun key => "`" ++ key ++ "`"))
  let vals := ", ".intercalate (keys.map (fun _ => "%s"))
  let updates := ", ".intercalate (update_keys.map (fun key => key ++ " = VALUES(" ++ key ++ ")"))
  let sql := "INSERT INTO " ++ table ++ " (" ++ cols ++ ") VALUES (" ++ vals ++
    ") ON DUPLICATE KEY UPDATE " ++ updates
  let args := rebindLoop (keys.map (lookupObj obj))
  (sql, args)

end Database

/-- The state of the statement-splitting loop in `Database.execute_many`:
the active delimiter `DELIMITER`, the partial-statement buffer `stmt`, and
the accumulated finalized statements `stmts`. -/
structure ScriptState where
  delim : String
  stmt : String
  stmts : List String
deriving DecidableEq

/-- One iteration of the line loop in `Database.execute_many`. -/
def executeManyStep (st : ScriptState) (line : String) : Except PyErr ScriptState :=
  if pyTrim line = "" then .ok st
  else if pyStartsWith line "--" then .ok st
  else if pyContains line "DELIMITER" then
    match (pySplit line).get? 1 with
    | some d => .ok { st with delim := d }
    | Option.none => .error .indexError
  else if !(pyContains line st.delim) then
    .ok { st with stmt := st.stmt ++ pyReplace line st.delim ";" }
  else if st.stmt ≠ "" then
    .ok { st with stmt := "", stmts := st.stmts ++ [pyTrim (st.stmt ++ line)] }
  else
    .ok { st with stmts := st.stmts ++ [pyTrim line] }

/-- The line loop of `Database.execute_many`; at end of input the collected
statements are returned (and then executed in order). -/
def executeManyAux (st : ScriptState) : List String → Except PyErr (List String)
  | [] => .ok st.stmts
  | line :: rest => do
    let st2 ← executeManyStep st line
    executeManyAux st2 rest

namespace Database

/-- Embeds `Database.execute_many(lines)`: split the script into statements,
starting from delimiter `";"`, empty buffer and no statements; the
resulting list is then passed to `cursor.execute` one by one, in order. -/
def execute_many (lines : List String) : Except PyErr (List String) :=
  executeManyAux ⟨";", "", []⟩ lines

end Database

/-!
Theorems for the claims, in order C1 .. C10.
-/

/-- Claim C1, counterexample: on the four-line script of P7, `execute_many`
does execute two statements in order, but they are "SELECT 1$$" and
"SELECT 2;" — the trailing delimiter is never stripped (only surrounding
whitespace is), so the executed statements are not "SELECT 1" and
"SELECT 2". -/
theorem c1_counterexample :
    Database.execute_many ["DELIMITER $$", "SELECT 1$$", "DELIMITER ;", "SELECT 2;"] =
        Except.ok ["SELECT 1$$", "SELECT 2;"] ∧
      (Except.ok ["SELECT 1$$", "SELECT 2;"] : Except PyErr (List String)) ≠
        Except.ok ["SELECT 1", "SELECT 2"] := by
  decide

/-- Claim C1, amended: on the input lines
["DELIMITER $$", "SELECT 1$$", "DELIMITER ;", "SELECT 2;"], `execute_many`
executes exactly two statements, in order: "SELECT 1$$" and then
"SELECT 2;"; each is stripped of leading/trailing whitespace but retains
its trailing delimiter. -/
theorem c1_script_delimiter_amended :
    Database.execute_many ["DELIMITER $$", "SELECT 1$$", "DELIMITER ;", "SELECT 2;"] =
      Except.ok ["SELECT 1$$", "SELECT 2;"] := by
  decide

/-- Claim C2, counterexample: a `Database` whose transport is open but whose
`commit()` raises. `__del__` propagates the driver error instead of
swallowing it, and the connection is never closed (no `close` op is
issued) — teardown is not defensive and can raise. -/
theorem c2_counterexample :
    Database.__del__ ⟨"db", false, ⟨true, true, false⟩⟩ = Except.error PyErr.operationalError := by
  decide

/-- Claim C2, amended: when a `Database` is discarded while its transport is
open and both driver calls succeed, teardown issues exactly one commit then
one close; when the transport is already closed it does nothing; but the
teardown body has no exception handling, so a failing commit propagates out
of `__del__` (and skips the close) rather than being swallowed. -/
theorem c2_teardown_amended (db : Database) :
    (db.conn.isOpen = true → db.conn.commitFails = false → db.conn.closeFails = false →
        Database.__del__ db = Except.ok [Op.commit, Op.close]) ∧
      (db.conn.isOpen = false → Database.__del__ db = Except.ok []) ∧
      (db.conn.isOpen = true → db.conn.commitFails = true →
        Database.__del__ db = Except.error PyErr.operationalError) ∧
      (db.conn.isOpen = true → db.conn.commitFails = false → db.conn.closeFails = true →
        Database.__del__ db = Except.error PyErr.operationalError) := by
  refine ⟨fun h1 h2 h3 => ?_, fun h1 => ?_, fun h1 h2 => ?_, fun h1 h2 h3 => ?_⟩ <;>
    simp [Database.__del__, connCommit, connClose, h1, *] <;> rfl

/-- Witness for `c2_teardown_amended` at concrete connections: the two
clean cases, a failing commit, and a failing close after a clean commit. -/
theorem c2_teardown_witness :
    Database.__del__ ⟨"m", false, ⟨true, false, false⟩⟩ = Except.ok [Op.commit, Op.close] ∧
      Database.__del__ ⟨"m", false, ⟨false, true, true⟩⟩ = Except.ok [] ∧
      Database.__del__ ⟨"m", true, ⟨true, true, true⟩⟩ = Except.error PyErr.operationalError ∧
      Database.__del__ ⟨"m", true, ⟨true, false, true⟩⟩ = Except.error PyErr.operationalError :=
  ⟨(c2_teardown_amended ⟨"m", false, ⟨true, false, false⟩⟩).1 rfl rfl rfl,
    (c2_teardown_amended ⟨"m", false, ⟨false, true, true⟩⟩).2.1 rfl,
    (c2_teardown_amended ⟨"m", true, ⟨true, true, true⟩⟩).2.2.1 rfl rfl,
    (c2_teardown_amended ⟨"m", true, ⟨true, false, true⟩⟩).2.2.2 rfl rfl rfl⟩

/-- Connect-retry loop under a connector that always fails: starting at
attempt index `r ≤ m`, the loop makes `m - r` further attempts, sleeps
`2^k` after each failed attempt `k` that is followed by another one, and
ends with the error carrying `m`. -/
theorem getConnectionGo_always_fail (connect : Nat → Bool) (m : Nat)
    (hf : ∀ k, k < m → connect k = false) :
    ∀ n r a s, m - r = n → r ≤ m →
      getConnectionGo connect m r a s =
        (a + (m - r), s ++ (List.range' r (m - 1 - r)).map (fun k => 2 ^ k),
          Except.error (PyErr.connectError m)) := by
  intro n
  induction n with
  | zero =>
    intro r a s h0 hrm
    have hmr : ¬ r < m := by omega
    have h2 : m - 1 - r = 0 := by omega
    unfold getConnectionGo
    rw [dif_neg hmr]
    simp [h0, h2]
  | succ n ih =>
    intro r a s h0 hrm
    have hrm' : r < m := by omega
    unfold getConnectionGo
    rw [dif_pos hrm', hf r hrm']
    simp only [Bool.false_eq_true, if_false]
    rw [ih (r + 1) (a + 1) _ (by omega) (by omega)]
    simp only [Prod.mk.injEq]
    refine ⟨by omega, ?_, by trivial⟩
    by_cases hr1 : r < m - 1
    · rw [if_pos hr1]
      have hm : m - 1 - r = (m - 1 - (r + 1)) + 1 := by omega
      rw [hm, List.range'_succ]
      simp [List.append_assoc]
    · rw [if_neg hr1]
      have h1 : m - 1 - (r + 1) = 0 := by omega
      have h2 : m - 1 - r = 0 := by omega
      simp [h1, h2]

/-- Claim C3: with a connector that always fails, construction attempts the
connection exactly `maxRetries` times, sleeps `2^k` after failed attempt
`k` for every attempt that is followed by another one (k = 0 .. maxRetries-2),
and then fails with the connect error carrying the retry count. -/
theorem c3_retry_backoff (maxRetries : Nat) (connect : Nat → Bool)
    (hf : ∀ k, k < maxRetries → connect k = false) :
    _get_connection connect maxRetries =
      (maxRetries, (List.range (maxRetries - 1)).map (fun k => 2 ^ k),
        Except.error (PyErr.connectError maxRetries)) := by
  unfold _get_connection
  rw [getConnectionGo_always_fail connect maxRetries hf (maxRetries - 0) 0 0 [] rfl
    (Nat.zero_le _)]
  simp [List.range_eq_range']

/-- Witness for `c3_retry_backoff`: three attempts, sleeping 1 then 2 time
units, then the connect error carrying 3. -/
theorem c3_retry_backoff_witness :
    _get_connection (fun _ => false) 3 =
      (3, [1, 2], Except.error (PyErr.connectError 3)) := by
  have h := c3_retry_backoff 3 (fun _ => false) (fun _ _ => rfl)
  simpa using h

/-- Claim C4: used as a context manager with `autocommit = false`, a clean
exit issues exactly one commit and zero rollbacks, and an exit through a
propagating exception issues exactly one rollback and zero commits. -/
theorem c4_transaction_scope (db : Database) (hac : db.autocommit = false) :
    ((Database.__exit__ db false).count Op.commit = 1 ∧
        (Database.__exit__ db false).count Op.rollback = 0) ∧
      ((Database.__exit__ db true).count Op.rollback = 1 ∧
        (Database.__exit__ db true).count Op.commit = 0) := by
  refine ⟨⟨?_, ?_⟩, ?_, ?_⟩ <;> simp only [Database.__exit__] <;> decide

/-- Witness for `c4_transaction_scope` at a concrete non-autocommit
database. -/
theorem c4_transaction_scope_witness :
    ((Database.__exit__ ⟨"m", false, ⟨true, false, false⟩⟩ false).count Op.commit = 1 ∧
        (Database.__exit__ ⟨"m", false, ⟨true, false, false⟩⟩ false).count Op.rollback = 0) ∧
      ((Database.__exit__ ⟨"m", false, ⟨true, false, false⟩⟩ true).count Op.rollback = 1 ∧
        (Database.__exit__ ⟨"m", false, ⟨true, false, false⟩⟩ true).count Op.commit = 0) :=
  c4_transaction_scope ⟨"m", false, ⟨true, false, false⟩⟩ rfl

/-- Claim C5: every builder draws its column list from `nonIdKeys`, which
never contains "id"; concretely, insert, update and upsert on a row with an
"id" key generate SQL whose column list/SET list/VALUES list mention only
`name`, with value "x" bound (and never the value 5 of "id"). -/
theorem c5_builders_exclude_id (obj : Obj) :
    "id" ∉ nonIdKeys obj ∧ "id" ∉ onDupKeys obj ∧
      Database.insert "t" [("id", Value.int 5), ("name", Value.str "x")] =
        ("INSERT INTO t (`name`) VALUES (%s)", [Value.str "x"]) ∧
      Database.update "t" [("id", Value.int 5), ("name", Value.str "x")]
          (some ("id", Value.int 7)) Option.none =
        ([Op.exec "UPDATE t SET `name`=%s WHERE `id`=%s" [Value.str "x", Value.int 7]],
          Except.ok ("UPDATE t SET `name`=%s WHERE `id`=%s", [Value.str "x", Value.int 7])) ∧
      Database.insert_on_dup_update "t" [("id", Value.int 5), ("name", Value.str "x")] =
        ("INSERT INTO t (`name`) VALUES (%s) ON DUPLICATE KEY UPDATE name = VALUES(name)",
          [Value.str "x"]) := by
  refine ⟨?_, ?_, by decide, by decide, by decide⟩ <;>
    simp [nonIdKeys, onDupKeys, List.mem_filter]

/-- Claim C6: the ON DUPLICATE KEY UPDATE clause of
`insert_on_dup_update` lists exactly the row's columns other than "id" and
"created_at" (in row order), so "created_at" is never overwritten on
conflict. -/
theorem c6_upsert_preserves_created_at (obj : Obj) :
    (∀ k, k ∈ onDupKeys obj ↔ (k ∈ List.map Prod.fst obj ∧ k ≠ "id" ∧ k ≠ "created_at")) ∧
      "created_at" ∉ onDupKeys obj ∧
      Database.insert_on_dup_update "t"
          [("id", Value.int 1), ("name", Value.str "x"), ("created_at", Value.str "c")] =
        ("INSERT INTO t (`name`, `created_at`) VALUES (%s, %s) ON DUPLICATE KEY UPDATE name = VALUES(name)",
          [Value.str "x", Value.str "c"]) := by
  refine ⟨fun k => ?_, ?_, by decide⟩
  · simp [onDupKeys, nonIdKeys, List.mem_filter, and_assoc]
    exact fun x _ => and_comm
  · simp [onDupKeys, nonIdKeys, List.mem_filter]

/-- Claim C7: calling `update` with both where-forms omitted raises
`ValueError` before any SQL is built or executed: the trace of issued
`cursor.execute` calls is empty. -/
theorem c7_update_requires_where (table : String) (obj : Obj) :
    Database.update table obj Option.none Option.none = ([], Except.error PyErr.valueError) :=
  rfl

/-- Claim C8: in `update` and `insert_on_dup_update` the datetime-conversion
loop rebinds only a local variable, so the bound arguments keep raw
datetime values; `insert`, by contrast, rebinds `args[i]` and binds the
formatted wire string instead. -/
theorem c8_datetime_unconverted (d : PyDateTime) :
    (∀ args : List Value, rebindLoop args = args) ∧
      Database.update "t" [("ts", Value.dt d)] (some ("id", Value.int 1)) Option.none =
        ([Op.exec "UPDATE t SET `ts`=%s WHERE `id`=%s" [Value.dt d, Value.int 1]],
          Except.ok ("UPDATE t SET `ts`=%s WHERE `id`=%s", [Value.dt d, Value.int 1])) ∧
      Database.insert_on_dup_update "t" [("ts", Value.dt d)] =
        ("INSERT INTO t (`ts`) VALUES (%s) ON DUPLICATE KEY UPDATE ts = VALUES(ts)",
          [Value.dt d]) ∧
      Database.insert "t" [("ts", Value.dt d)] =
        ("INSERT INTO t (`ts`) VALUES (%s)", [Value.str (Database.fmt_datetime d)]) ∧
      Value.str (Database.fmt_datetime d) ≠ Value.dt d := by
  refine ⟨fun args => rfl, rfl, rfl, rfl, by simp⟩

/-- Claim C9: an unterminated partial statement buffer is silently dropped
at end of input: the loop returns only the finalized statements, raising
nothing. Concretely, after "DELIMITER $$" the line "SELECT 1;" is buffered
(the active delimiter "$$" does not occur in it) and the script executes
zero statements without error. -/
theorem c9_partial_buffer_discarded :
    (∀ st : ScriptState, executeManyAux st [] = Except.ok st.stmts) ∧
      executeManyStep ⟨"$$", "", []⟩ "SELECT 1;" = Except.ok ⟨"$$", "SELECT 1;", []⟩ ∧
      executeManyAux ⟨"$$", "SELECT 1;", []⟩ [] = Except.ok [] ∧
      Database.execute_many ["DELIMITER $$", "SELECT 1;"] = Except.ok [] := by
  refine ⟨fun st => rfl, by decide, rfl, by decide⟩

/-- Claim C10, counterexample: the line "--DELIMITER $$" contains the
substring "DELIMITER" and its second whitespace-separated token is "$$",
yet `execute_many` skips it as a comment: the loop state is unchanged and
the active delimiter stays ";" — so not every line containing "DELIMITER"
is treated as a delimiter directive. -/
theorem c10_counterexample :
    pyContains "--DELIMITER $$" "DELIMITER" = true ∧
      (pySplit "--DELIMITER $$").get? 1 = some "$$" ∧
      executeManyStep ⟨";", "", []⟩ "--DELIMITER $$" = Except.ok ⟨";", "", []⟩ ∧
      (";" : String) ≠ "$$" := by
  decide

/-- Claim C10, amended: any non-blank line that does not start with "--"
and contains the substring "DELIMITER" anywhere is treated as a delimiter
directive — its second whitespace-separated token becomes the new active
delimiter and the line contributes to no statement — and when such a line
has fewer than two whitespace-separated tokens, `execute_many` fails with
an unhandled index-out-of-range error, as on the input ["DELIMITER"]. -/
theorem c10_delimiter_directive_amended (st : ScriptState) (line : String)
    (h0 : pyTrim line ≠ "") (h1 : pyStartsWith line "--" = false)
    (h2 : pyContains line "DELIMITER" = true) :
    (∀ d, (pySplit line).get? 1 = some d →
        executeManyStep st line = Except.ok { st with delim := d }) ∧
      ((pySplit line).get? 1 = Option.none →
        executeManyStep st line = Except.error PyErr.indexError) ∧
      Database.execute_many ["DELIMITER"] = Except.error PyErr.indexError := by
  refine ⟨fun d hd => ?_, fun hd => ?_, by decide⟩ <;>
    rw [List.get?_eq_getElem?] at hd <;>
    simp [executeManyStep, h0, h1, h2, hd]

/-- Witness for `c10_delimiter_directive_amended`: the directive line
"DELIMITER $$" sets the active delimiter to "$$", and the input
["DELIMITER"] crashes with the index error. -/
theorem c10_delimiter_directive_witness :
    executeManyStep ⟨";", "", []⟩ "DELIMITER $$" = Except.ok ⟨"$$", "", []⟩ ∧
      Database.execute_many ["DELIMITER"] = Except.error PyErr.indexError :=
  ⟨(c10_delimiter_directive_amended ⟨";", "", []⟩ "DELIMITER $$" (by decide) (by decide)
      (by decide)).1 "$$" (by decide),
    (c10_delimiter_directive_amended ⟨";", "", []⟩ "DELIMITER $$" (by decide) (by decide)
      (by decide)).2.2⟩
